import Mathlib

/-!
Verification of the spaced-repetition scheduling engine
(`lib/algorithms/spaced-repetition.ts`, emitted by `spaced.py`).

Modelling conventions:
* JS `number` is modelled as `ℚ` (exact arithmetic); the one quantity that
  needs a transcendental function (`Math.exp` in the memory-strength
  estimate) lives in `ℝ`.
* Dates are modelled as integer milliseconds since the epoch; the wall
  clock (`new Date()` / `Date.now()`) is injected as an explicit `now`
  parameter, as the specification requires for determinism.
* `Math.round x` is `⌊x + 1/2⌋`, `Math.ceil` is `⌈·⌉`, and JS
  `array.slice` with negative arguments is expressed with `List.drop` /
  `List.take` (natural subtraction gives exactly the JS clamping to 0).
-/

/-- JS `Math.round`: round half towards `+∞`. -/
def jsRound (x : ℚ) : ℤ := ⌊x + 1/2⌋

/-- Round to two decimal places, as `Math.round(x * 100) / 100`. -/
def round2 (x : ℚ) : ℚ := (jsRound (x * 100) : ℚ) / 100

/-- Round a real to two decimal places, as `Math.round(x * 100) / 100`. -/
noncomputable def round2R (x : ℝ) : ℝ := (⌊x * 100 + 1/2⌋ : ℤ) / 100

/-- `difficulty_trend` values. -/
inductive Trend where
  | improving
  | stable
  | declining
deriving DecidableEq, Repr

/-- The `FlashcardProgress` record (one snapshot per user × card). -/
structure FlashcardProgress where
  flashcard_id : String
  user_id : String
  ease_factor : ℚ
  interval_days : ℤ
  repetitions : ℕ
  next_review_date : ℤ
  last_reviewed_at : Option ℤ
  quality_responses : List ℚ
  total_reviews : ℕ
  success_rate : ℚ
  average_response_time : ℚ
  difficulty_trend : Trend
deriving DecidableEq, Repr

/-- The `ReviewResponse` input record. -/
structure ReviewResponse where
  quality : ℚ
  response_time : ℚ
  confidence_level : ℚ
  hints_used : ℕ
  partial_correct : Bool
deriving DecidableEq, Repr

/-- Feedback levels. -/
inductive FeedbackLevel where
  | excellent
  | good
  | fair
  | poor
deriving DecidableEq, Repr

/-- The `performance_feedback` component of a review result. -/
structure PerformanceFeedback where
  level : FeedbackLevel
  message : String
  next_session_recommendation : String
deriving DecidableEq, Repr

/-- The `study_analytics` component of a review result.  The
`estimated_memory_strength` field uses `Math.exp` and is therefore
real-valued. -/
structure StudyAnalytics where
  retention_rate : ℚ
  mastery_level : ℚ
  estimated_memory_strength : ℝ

/-- The `ReviewResult` returned by `calculateNextReview`. -/
structure ReviewResult where
  updated_progress : FlashcardProgress
  next_review_date : ℤ
  interval_days : ℤ
  ease_factor : ℚ
  performance_feedback : PerformanceFeedback
  study_analytics : StudyAnalytics

/-- `initializeProgress`: default progress for a new flashcard
(`next_review_date` is `new Date()`, i.e. the injected `now`). -/
def initializeProgress (now : ℤ) : FlashcardProgress where
  flashcard_id := ""
  user_id := ""
  ease_factor := 5/2
  interval_days := 1
  repetitions := 0
  next_review_date := now
  last_reviewed_at := none
  quality_responses := []
  total_reviews := 0
  success_rate := 0
  average_response_time := 0
  difficulty_trend := Trend.stable

/-- `calculateAdjustedQuality`: quality adjusted for response time,
confidence, hints and partial credit, clamped to `[0, 5]`.
`progress.average_response_time || 30000` is falsy exactly on `0`. -/
def calculateAdjustedQuality (response : ReviewResponse)
    (progress : FlashcardProgress) : ℚ :=
  let avgResponseTime : ℚ :=
    if progress.average_response_time = 0 then 30000
    else progress.average_response_time
  let timeRatio := response.response_time / avgResponseTime
  let q1 : ℚ := response.quality +
    (if timeRatio < 1/2 then 3/10 else if 2 < timeRatio then -(1/5) else 0)
  let q2 : ℚ := q1 + (response.confidence_level - 1/2) * (2/5)
  let q3 : ℚ :=
    if 0 < response.hints_used then q2 - (response.hints_used : ℚ) * (3/10)
    else q2
  let q4 : ℚ :=
    if response.partial_correct && decide (response.quality < 3) then q3 + 1/2 else q3
  max 0 (min 5 q4)

/-- `calculateDifficultyTrend`: compare the mean of the last 5 recorded
scores with the mean of the 5 before them. -/
def calculateDifficultyTrend (qualityResponses : List ℚ) : Trend :=
  if qualityResponses.length < 3 then Trend.stable
  else
    let recent := qualityResponses.drop (qualityResponses.length - 5)
    let older :=
      (qualityResponses.take (qualityResponses.length - 5)).drop
        (qualityResponses.length - 10)
    if older.length = 0 then Trend.stable
    else
      let recentAvg := (recent.foldl (· + ·) 0) / (recent.length : ℚ)
      let olderAvg := (older.foldl (· + ·) 0) / (older.length : ℚ)
      let difference := recentAvg - olderAvg
      if 3/10 < difference then Trend.improving
      else if difference < -(3/10) then Trend.declining
      else Trend.stable

/-- `updateProgressData`: append to the (bounded) history, bump counters,
recompute success rate, running-mean response time and trend.
`slice(-19)` keeps at most the last 19 prior entries. -/
def updateProgressData (progress : FlashcardProgress)
    (response : ReviewResponse) (adjustedQuality : ℚ) : FlashcardProgress :=
  let quality_responses :=
    progress.quality_responses.drop (progress.quality_responses.length - 19)
      ++ [adjustedQuality]
  let total_reviews := progress.total_reviews + 1
  let successfulReviews := (quality_responses.filter (fun q => 3 ≤ q)).length
  let success_rate := (successfulReviews : ℚ) / (quality_responses.length : ℚ)
  let totalTime := progress.average_response_time *
    ((progress.total_reviews : ℚ) - 1) + response.response_time
  let average_response_time := totalTime / (total_reviews : ℚ)
  { progress with
    quality_responses := quality_responses
    total_reviews := total_reviews
    success_rate := success_rate
    average_response_time := average_response_time
    difficulty_trend := calculateDifficultyTrend quality_responses }

/-- `calculateSM2Interval`: the SM-2 interval/ease update (returns the pair
`(interval_days, ease_factor)`; the locally updated repetition count is
discarded by the caller, exactly as in the source). -/
def calculateSM2Interval (progress : FlashcardProgress) (quality : ℚ) :
    ℤ × ℚ :=
  let interval₁ : ℤ :=
    if quality < 3 then 1
    else
      let repetitions := progress.repetitions + 1
      if repetitions = 1 then 6
      else if repetitions = 2 then 6
      else jsRound ((progress.interval_days : ℚ) * progress.ease_factor)
  let easeFactor := progress.ease_factor +
    (1/10 - (5 - quality) * (2/25 + (5 - quality) * (1/50)))
  let ease_factor := max (13/10) easeFactor
  let interval₂ : ℤ :=
    if progress.difficulty_trend = Trend.improving then
      jsRound ((interval₁ : ℚ) * (6/5))
    else if progress.difficulty_trend = Trend.declining then
      jsRound ((interval₁ : ℚ) * (4/5))
    else interval₁
  let interval_days := max 1 (min 365 interval₂)
  (interval_days, ease_factor)

/-- `generatePerformanceFeedback`: classify the (adjusted) quality and
build the messages; the recommendation strings interpolate
`progress.interval_days`. -/
def generatePerformanceFeedback (quality : ℚ)
    (progress : FlashcardProgress) : PerformanceFeedback :=
  if 9/2 ≤ quality then
    { level := FeedbackLevel.excellent
      message := "Outstanding! You have mastered this concept."
      next_session_recommendation :=
        "Next review in " ++ toString progress.interval_days ++
          " days. Keep up the excellent work!" }
  else if 7/2 ≤ quality then
    { level := FeedbackLevel.good
      message := "Good recall! You\x27re building strong memory traces."
      next_session_recommendation :=
        "Review again in " ++ toString progress.interval_days ++
          " days to reinforce learning." }
  else if 5/2 ≤ quality then
    { level := FeedbackLevel.fair
      message := "Partial recall. Consider reviewing the concept again."
      next_session_recommendation :=
        "Shortened interval to " ++ toString progress.interval_days ++
          " days for better retention." }
  else
    { level := FeedbackLevel.poor
      message := "Difficulty recalling. Additional study recommended."
      next_session_recommendation :=
        "Review tomorrow and consider studying related concepts." }

/-- The rational part of `calculateStudyAnalytics`: retention rate and
mastery level (both rounded to 2 decimals). -/
def calculateStudyAnalyticsRat (progress : FlashcardProgress) : ℚ × ℚ :=
  let retention_rate := progress.success_rate
  let recentQuality :=
    progress.quality_responses.drop (progress.quality_responses.length - 5)
  let avgRecentQuality : ℚ :=
    if 0 < recentQuality.length then
      (recentQuality.foldl (· + ·) 0) / (recentQuality.length : ℚ)
    else 0
  let mastery_level :=
    min 1 ((avgRecentQuality / 5) * ((progress.repetitions : ℚ) / 10))
  (round2 retention_rate, round2 mastery_level)

/-- The real part of `calculateStudyAnalytics`: the Ebbinghaus
memory-strength estimate.  `daysSinceLastReview` is measured from the
snapshot's `last_reviewed_at` to the injected `now` (`Date.now()`). -/
noncomputable def estimatedMemoryStrength (now : ℤ)
    (progress : FlashcardProgress) : ℝ :=
  let retention_rate : ℝ := (progress.success_rate : ℝ)
  let daysSinceLastReview : ℝ :=
    match progress.last_reviewed_at with
    | some t => ((now - t : ℤ) : ℝ) / (1000 * 60 * 60 * 24)
    | none => 0
  round2R (max (1/10)
    (retention_rate *
      Real.exp (-daysSinceLastReview /
        ((progress.interval_days : ℝ) * (1/2)))))

/-- `calculateStudyAnalytics`, assembled from its rational and real
parts. -/
noncomputable def calculateStudyAnalytics (now : ℤ)
    (progress : FlashcardProgress) : StudyAnalytics :=
  { retention_rate := (calculateStudyAnalyticsRat progress).1
    mastery_level := (calculateStudyAnalyticsRat progress).2
    estimated_memory_strength := estimatedMemoryStrength now progress }

/-- `calculateNextReview`: the core review transform.  Only
`interval_days` and `ease_factor` of the SM-2 result are written back to
the snapshot; `next_review_date` is `now + interval_days` days and
`last_reviewed_at` is stamped with `now` before the analytics are
computed. -/
noncomputable def calculateNextReview (now : ℤ)
    (currentProgress : Option FlashcardProgress)
    (reviewResponse : ReviewResponse) : ReviewResult :=
  let progress := currentProgress.getD (initializeProgress now)
  let adjustedQuality := calculateAdjustedQuality reviewResponse progress
  let updatedProgress₀ := updateProgressData progress reviewResponse adjustedQuality
  let sm2 := calculateSM2Interval updatedProgress₀ adjustedQuality
  let interval_days := sm2.1
  let ease_factor := sm2.2
  let next_review_date := now + interval_days * 86400000
  let updatedProgress :=
    { updatedProgress₀ with
      interval_days := interval_days
      ease_factor := ease_factor
      next_review_date := next_review_date
      last_reviewed_at := some now }
  { updated_progress := updatedProgress
    next_review_date := next_review_date
    interval_days := interval_days
    ease_factor := ease_factor
    performance_feedback :=
      generatePerformanceFeedback adjustedQuality updatedProgress
    study_analytics := calculateStudyAnalytics now updatedProgress }

/-- Apply a sequence of reviews (each with its own clock reading) through
`calculateNextReview`, threading the updated snapshot. -/
noncomputable def reviewSeq (p : FlashcardProgress)
    (l : List (ℤ × ReviewResponse)) : FlashcardProgress :=
  l.foldl (fun p te => (calculateNextReview te.1 (some p) te.2).updated_progress) p

/-- `getDueCards`: cards whose `next_review_date` is at or before the start
of today (`today` is the injected start-of-day timestamp), sorted
ascending by `next_review_date` (JS `Array.sort` is stable). -/
def getDueCards (today : ℤ) (progressList : List FlashcardProgress) :
    List FlashcardProgress :=
  (progressList.filter (fun progress => progress.next_review_date ≤ today)).mergeSort
    (fun a b => a.next_review_date ≤ b.next_review_date)

/-- The UTC day number of a millisecond timestamp; it stands for the ISO
date string `toISOString().split('T')[0]` (two timestamps have the same
day number iff they have the same ISO date). -/
def dateKey (ms : ℤ) : ℤ := ⌊(ms : ℚ) / 86400000⌋

/-- Group a list of day keys into `(key, count)` pairs, first occurrence
order (JS object string-key insertion order). -/
def groupCounts (keys : List ℤ) : List (ℤ × ℕ) :=
  keys.foldl
    (fun acc k =>
      if acc.any (fun p => p.1 = k) then
        acc.map (fun p => if p.1 = k then (p.1, p.2 + 1) else p)
      else acc ++ [(k, 1)])
    []

/-- `getUpcomingReviews`: count cards per calendar day over the next
`days` days, sorted ascending by date. -/
def getUpcomingReviews (now : ℤ) (progressList : List FlashcardProgress)
    (days : ℤ := 7) : List (ℤ × ℕ) :=
  let endDate := now + days * 86400000
  let upcoming := progressList.filter
    (fun progress =>
      progress.next_review_date ≤ endDate ∧ now ≤ progress.next_review_date)
  (groupCounts (upcoming.map (fun progress => dateKey progress.next_review_date))).mergeSort
    (fun a b => a.1 ≤ b.1)

/-- The session recommendation returned by
`calculateOptimalSessionLength`. -/
structure SessionRecommendation where
  recommended_cards : ℕ
  estimated_duration_minutes : ℤ
  break_recommendation : String
deriving DecidableEq, Repr

/-- `calculateOptimalSessionLength`: recommend a card count clamped into
`[5, 20]` (capped by the due count at 25), estimate the duration, and pick
a break recommendation.  The `> 45` branch sits after the `> 30` branch in
the source `if/else if` chain. -/
def calculateOptimalSessionLength (today : ℤ)
    (userProgress : List FlashcardProgress) (avgResponseTime : ℚ := 30000) :
    SessionRecommendation :=
  let dueCards := getDueCards today userProgress
  let avgTimePerCard := avgResponseTime / 1000
  let maxCards := min 25 dueCards.length
  let recommendedCards := max 5 (min maxCards 20)
  let estimatedDurationMinutes : ℤ :=
    ⌈((recommendedCards : ℚ) * avgTimePerCard) / 60⌉
  let breakRecommendation :=
    if 30 < estimatedDurationMinutes then
      "Take a 5-minute break after every 15 cards to maintain focus."
    else if 45 < estimatedDurationMinutes then
      "Consider splitting this session into two shorter sessions."
    else
      "Complete all cards in one focused session for best results."
  { recommended_cards := recommendedCards
    estimated_duration_minutes := estimatedDurationMinutes
    break_recommendation := breakRecommendation }

/-- `formatNextReview`: relative-date label for a target date, given the
injected `now`; `diffDays` is `Math.ceil` of the millisecond difference in
days. -/
def formatNextReview (now date : ℤ) : String :=
  let diffTime := date - now
  let diffDays : ℤ := ⌈(diffTime : ℚ) / (1000 * 60 * 60 * 24)⌉
  if diffDays = 0 then "Today"
  else if diffDays = 1 then "Tomorrow"
  else if diffDays = -1 then "Yesterday (Overdue)"
  else if diffDays < 0 then toString diffDays.natAbs ++ " days overdue"
  else if diffDays < 7 then "In " ++ toString diffDays ++ " days"
  else if diffDays < 30 then
    "In " ++ toString (⌈(diffDays : ℚ) / 7⌉ : ℤ) ++ " weeks"
  else "In " ++ toString (⌈(diffDays : ℚ) / 30⌉ : ℤ) ++ " months"

/-- Streak classification. -/
inductive StreakType where
  | success
  | failure
deriving DecidableEq, Repr

/-- The result of `calculateStreak`. -/
structure StreakInfo where
  current_streak : ℕ
  longest_streak : ℕ
  streak_type : StreakType
deriving DecidableEq, Repr

/-- `calculateStreak`: trailing streak matching the classification of the
most recent entry, plus the longest run of successes anywhere. -/
def calculateStreak (qualityResponse : List ℚ) : StreakInfo :=
  match qualityResponse.reverse with
  | [] => { current_streak := 0, longest_streak := 0
            streak_type := StreakType.success }
  | lastResponse :: rest =>
    let streakType :=
      if 3 ≤ lastResponse then StreakType.success else StreakType.failure
    let sameClass : ℚ → Bool := fun q =>
      match streakType with
      | StreakType.success => decide (3 ≤ q)
      | StreakType.failure => !(decide (3 ≤ q))
    let current_streak := ((lastResponse :: rest).takeWhile sameClass).length
    let longest_streak :=
      (qualityResponse.foldl
        (fun st q =>
          if 3 ≤ q then (st.1 + 1, max st.2 (st.1 + 1)) else (0, st.2))
        ((0, 0) : ℕ × ℕ)).2
    { current_streak := current_streak
      longest_streak := longest_streak
      streak_type := streakType }

/-- A first review: perfect quality, response time equal to the 30 s
default, neutral confidence, no hints, no partial credit.  Its adjusted
quality is `5 ≥ 3` and the difficulty trend stays `stable`. -/
def evC1 : ReviewResponse :=
  { quality := 5, response_time := 30000, confidence_level := 1/2
    hints_used := 0, partial_correct := false }

/-- A snapshot that has seen exactly one review, with a running mean
response time of 1000 ms. -/
def priorC2 : FlashcardProgress :=
  { flashcard_id := "", user_id := "", ease_factor := 5/2, interval_days := 6
    repetitions := 1, next_review_date := 0, last_reviewed_at := some 0
    quality_responses := [5], total_reviews := 1, success_rate := 1
    average_response_time := 1000, difficulty_trend := Trend.stable }

/-- A second review taking 2000 ms. -/
def evC2 : ReviewResponse :=
  { quality := 5, response_time := 2000, confidence_level := 1/2
    hints_used := 0, partial_correct := false }

/-- A snapshot last reviewed 300 days (25 920 000 000 ms) before the
epoch, never counted, with an empty history. -/
def priorC3 : FlashcardProgress :=
  { flashcard_id := "", user_id := "", ease_factor := 5/2, interval_days := 1
    repetitions := 0, next_review_date := 0
    last_reviewed_at := some (-25920000000)
    quality_responses := [], total_reviews := 0, success_rate := 0
    average_response_time := 0, difficulty_trend := Trend.stable }

/-- A bare successful review: raw quality 3 and no adjustments. -/
def evC3 : ReviewResponse :=
  { quality := 3, response_time := 30000, confidence_level := 1/2
    hints_used := 0, partial_correct := false }

/-- A completely failed recall: raw quality 0 and no adjustments. -/
def evC5 : ReviewResponse :=
  { quality := 0, response_time := 30000, confidence_level := 1/2
    hints_used := 0, partial_correct := false }

/-- Witness mirror of the spec sentence for C3: the claimed formula, with
`days_since_last_review` measured from the **prior** snapshot's
`last_reviewed_at` (0 if absent) and the updated snapshot's
`success_rate` (retention rate) and `interval_days`. -/
noncomputable def specMemoryStrength (now : ℤ)
    (prior updated : FlashcardProgress) : ℝ :=
  let daysSinceLastReview : ℝ :=
    match prior.last_reviewed_at with
    | some t => ((now - t : ℤ) : ℝ) / (1000 * 60 * 60 * 24)
    | none => 0
  round2R (max (1/10)
    ((updated.success_rate : ℝ) *
      Real.exp (-daysSinceLastReview /
        ((updated.interval_days : ℝ) * (1/2)))))

/-! ## Helper lemmas -/

/-- The ease factor returned by `calculateSM2Interval` is floored at
`1.3`. -/
theorem sm2_ease_ge (progress : FlashcardProgress) (quality : ℚ) :
    13/10 ≤ (calculateSM2Interval progress quality).2 := by
  simp only [calculateSM2Interval]
  exact le_max_left _ _

/-- The interval returned by `calculateSM2Interval` is clamped into
`[1, 365]`. -/
theorem sm2_interval_bounds (progress : FlashcardProgress) (quality : ℚ) :
    1 ≤ (calculateSM2Interval progress quality).1 ∧
      (calculateSM2Interval progress quality).1 ≤ 365 := by
  simp only [calculateSM2Interval]
  refine ⟨le_max_left _ _, max_le (by norm_num) ?_⟩
  exact min_le_left _ _

/-- `calculateNextReview` copies the SM-2 ease factor into both the result
and the updated snapshot. -/
theorem review_ease_eq (now : ℤ) (currentProgress : Option FlashcardProgress)
    (reviewResponse : ReviewResponse) :
    (calculateNextReview now currentProgress reviewResponse).ease_factor
        = (calculateSM2Interval
            (updateProgressData (currentProgress.getD (initializeProgress now))
              reviewResponse
              (calculateAdjustedQuality reviewResponse
                (currentProgress.getD (initializeProgress now))))
            (calculateAdjustedQuality reviewResponse
              (currentProgress.getD (initializeProgress now)))).2 ∧
      (calculateNextReview now currentProgress reviewResponse).updated_progress.ease_factor
        = (calculateSM2Interval
            (updateProgressData (currentProgress.getD (initializeProgress now))
              reviewResponse
              (calculateAdjustedQuality reviewResponse
                (currentProgress.getD (initializeProgress now))))
            (calculateAdjustedQuality reviewResponse
              (currentProgress.getD (initializeProgress now)))).2 :=
  ⟨rfl, rfl⟩

/-- `calculateNextReview` copies the SM-2 interval into both the result
and the updated snapshot. -/
theorem review_interval_eq (now : ℤ) (currentProgress : Option FlashcardProgress)
    (reviewResponse : ReviewResponse) :
    (calculateNextReview now currentProgress reviewResponse).interval_days
        = (calculateSM2Interval
            (updateProgressData (currentProgress.getD (initializeProgress now))
              reviewResponse
              (calculateAdjustedQuality reviewResponse
                (currentProgress.getD (initializeProgress now))))
            (calculateAdjustedQuality reviewResponse
              (currentProgress.getD (initializeProgress now)))).1 ∧
      (calculateNextReview now currentProgress reviewResponse).updated_progress.interval_days
        = (calculateSM2Interval
            (updateProgressData (currentProgress.getD (initializeProgress now))
              reviewResponse
              (calculateAdjustedQuality reviewResponse
                (currentProgress.getD (initializeProgress now))))
            (calculateAdjustedQuality reviewResponse
              (currentProgress.getD (initializeProgress now)))).1 :=
  ⟨rfl, rfl⟩

/-! ## Claim theorems -/

/-- **C8**: after any single review update — from any prior snapshot (or
none) and any review event — both the returned `ease_factor` and the
updated snapshot's `ease_factor` are at least `1.3`; hence the invariant
holds after every update of any review sequence. -/
theorem ease_factor_floor (now : ℤ)
    (currentProgress : Option FlashcardProgress)
    (reviewResponse : ReviewResponse) :
    13/10 ≤ (calculateNextReview now currentProgress reviewResponse).ease_factor ∧
      13/10 ≤ (calculateNextReview now currentProgress
        reviewResponse).updated_progress.ease_factor := by
  obtain ⟨h₁, h₂⟩ := review_ease_eq now currentProgress reviewResponse
  exact ⟨h₁ ▸ sm2_ease_ge _ _, h₂ ▸ sm2_ease_ge _ _⟩

/-- **C9**: after any single review update, both the returned
`interval_days` and the updated snapshot's `interval_days` lie in
`[1, 365]`. -/
theorem interval_days_bounds (now : ℤ)
    (currentProgress : Option FlashcardProgress)
    (reviewResponse : ReviewResponse) :
    (1 ≤ (calculateNextReview now currentProgress reviewResponse).interval_days ∧
        (calculateNextReview now currentProgress reviewResponse).interval_days ≤ 365) ∧
      (1 ≤ (calculateNextReview now currentProgress
            reviewResponse).updated_progress.interval_days ∧
        (calculateNextReview now currentProgress
            reviewResponse).updated_progress.interval_days ≤ 365) := by
  obtain ⟨h₁, h₂⟩ := review_interval_eq now currentProgress reviewResponse
  exact ⟨h₁ ▸ sm2_interval_bounds _ _, h₂ ▸ sm2_interval_bounds _ _⟩

/-- **C1**: the caller of `calculateSM2Interval` destructures only
`interval_days` and `ease_factor`, so the locally incremented repetition
count is never written back: the updated snapshot always keeps the prior
`repetitions`.  In particular a first successful review (adjusted quality
`≥ 3`, stable trend, starting from `repetitions = 0`) leaves
`repetitions = 0`, where the claim demands `N = 1`. -/
theorem repetitions_never_updated :
    (∀ (now : ℤ) (currentProgress : Option FlashcardProgress)
        (reviewResponse : ReviewResponse),
      (calculateNextReview now currentProgress
          reviewResponse).updated_progress.repetitions
        = (currentProgress.getD (initializeProgress now)).repetitions) ∧
      3 ≤ calculateAdjustedQuality evC1 (initializeProgress 0) ∧
      (calculateNextReview 0 none evC1).updated_progress.difficulty_trend
        = Trend.stable ∧
      (calculateNextReview 0 none evC1).updated_progress.repetitions = 0 := by
  refine ⟨fun now currentProgress reviewResponse => rfl, ?_, rfl, rfl⟩
  norm_num [calculateAdjustedQuality, initializeProgress, evC1]

/-- **C2**: the code weights the prior mean by `total_reviews - 1` instead
of `total_reviews`.  In general the updated mean is
`(m * (n - 1) + rt) / (n + 1)`; on a snapshot with one review of mean
1000 ms followed by a 2000 ms review it yields 1000 ms, while the claimed
formula `(m * n + rt) / (n + 1)` yields 1500 ms. -/
theorem average_response_time_off_by_one :
    (∀ (now : ℤ) (p : FlashcardProgress) (ev : ReviewResponse),
      (calculateNextReview now (some p) ev).updated_progress.average_response_time
        = (p.average_response_time * ((p.total_reviews : ℚ) - 1)
            + ev.response_time) / ((p.total_reviews + 1 : ℕ) : ℚ)) ∧
      (calculateNextReview 0 (some priorC2) evC2).updated_progress.average_response_time
        = 1000 ∧
      (priorC2.average_response_time * (priorC2.total_reviews : ℚ)
          + evC2.response_time) / ((priorC2.total_reviews : ℚ) + 1) = 1500 := by
  refine ⟨fun now p ev => rfl, ?_, ?_⟩
  · rw [show (calculateNextReview 0 (some priorC2)
        evC2).updated_progress.average_response_time
        = (priorC2.average_response_time * ((priorC2.total_reviews : ℚ) - 1)
            + evC2.response_time) / ((priorC2.total_reviews + 1 : ℕ) : ℚ) from rfl]
    norm_num [priorC2, evC2]
  · norm_num [priorC2, evC2]

/-- One review step rewrites the history to
`prior.drop (len - 19) ++ [adjusted quality]`. -/
theorem review_history_eq (now : ℤ) (p : FlashcardProgress)
    (ev : ReviewResponse) :
    (calculateNextReview now (some p) ev).updated_progress.quality_responses
      = p.quality_responses.drop (p.quality_responses.length - 19)
          ++ [calculateAdjustedQuality ev p] := rfl

/-- One review step keeps the history length at most 20. -/
theorem review_history_len_le (now : ℤ) (p : FlashcardProgress)
    (ev : ReviewResponse) :
    (calculateNextReview now (some p)
        ev).updated_progress.quality_responses.length ≤ 20 := by
  rw [review_history_eq]
  simp only [List.length_append, List.length_drop, List.length_cons,
    List.length_nil]
  omega

/-- **C7**: starting from any snapshot whose history holds at most 20
entries, a review step leaves at most 20 entries and keeps exactly the
most recent ones: the new history is `(old ++ [new score])` with the
oldest entries dropped; moreover any further sequence of reviews keeps the
bound. -/
theorem quality_history_bounded (p : FlashcardProgress)
    (h : p.quality_responses.length ≤ 20) (now : ℤ) (ev : ReviewResponse)
    (l : List (ℤ × ReviewResponse)) :
    (calculateNextReview now (some p) ev).updated_progress.quality_responses
        = (p.quality_responses ++ [calculateAdjustedQuality ev p]).drop
            (p.quality_responses.length + 1 - 20) ∧
      (calculateNextReview now (some p)
          ev).updated_progress.quality_responses.length ≤ 20 ∧
      (reviewSeq p l).quality_responses.length ≤ 20 := by
  refine ⟨?_, review_history_len_le now p ev, ?_⟩
  · rw [review_history_eq,
      List.drop_append_of_le_length (by omega :
        p.quality_responses.length + 1 - 20 ≤ p.quality_responses.length),
      show p.quality_responses.length + 1 - 20
        = p.quality_responses.length - 19 by omega]
  · clear now ev
    induction l generalizing p with
    | nil => exact h
    | cons te rest ih =>
      exact ih _ (review_history_len_le te.1 p te.2)

/-- The feedback of a review result is computed from the adjusted quality
of the prior snapshot and the fully updated snapshot (whose
`interval_days` is the newly computed interval). -/
theorem review_feedback_eq (now : ℤ)
    (currentProgress : Option FlashcardProgress) (ev : ReviewResponse) :
    (calculateNextReview now currentProgress ev).performance_feedback
      = generatePerformanceFeedback
          (calculateAdjustedQuality ev
            (currentProgress.getD (initializeProgress now)))
          (calculateNextReview now currentProgress ev).updated_progress := rfl

/-- **C5 (amended)**: the feedback tiers are cut at adjusted quality 4.5 /
3.5 / 2.5; the excellent, good and fair tiers carry fixed messages and a
recommendation embedding the computed `interval_days` of the updated
snapshot, but the poor tier's recommendation is a fixed string that does
not mention the interval. -/
theorem feedback_tiering (now : ℤ) (prior : Option FlashcardProgress)
    (ev : ReviewResponse) :
    (calculateNextReview now prior ev).performance_feedback
      = (if 9/2 ≤ calculateAdjustedQuality ev (prior.getD (initializeProgress now)) then
          { level := FeedbackLevel.excellent
            message := "Outstanding! You have mastered this concept."
            next_session_recommendation := "Next review in "
              ++ toString (calculateNextReview now prior ev).updated_progress.interval_days
              ++ " days. Keep up the excellent work!" }
        else if 7/2 ≤ calculateAdjustedQuality ev (prior.getD (initializeProgress now)) then
          { level := FeedbackLevel.good
            message := "Good recall! You\x27re building strong memory traces."
            next_session_recommendation := "Review again in "
              ++ toString (calculateNextReview now prior ev).updated_progress.interval_days
              ++ " days to reinforce learning." }
        else if 5/2 ≤ calculateAdjustedQuality ev (prior.getD (initializeProgress now)) then
          { level := FeedbackLevel.fair
            message := "Partial recall. Consider reviewing the concept again."
            next_session_recommendation := "Shortened interval to "
              ++ toString (calculateNextReview now prior ev).updated_progress.interval_days
              ++ " days for better retention." }
        else
          { level := FeedbackLevel.poor
            message := "Difficulty recalling. Additional study recommended."
            next_session_recommendation :=
              "Review tomorrow and consider studying related concepts." }) := rfl

/-- **C5 (counterexample)**: a review classified `poor` carries a
recommendation that does not embed the computed `interval_days` — the
decimal representation of the interval is not a substring of the
recommendation. -/
theorem feedback_poor_no_interval_counterexample :
    (calculateNextReview 0 none evC5).performance_feedback.level
        = FeedbackLevel.poor ∧
      ¬ ((toString (calculateNextReview 0 none
            evC5).updated_progress.interval_days).data
          <:+: (calculateNextReview 0 none
            evC5).performance_feedback.next_session_recommendation.data) := by
  have hq : calculateAdjustedQuality evC5 (initializeProgress 0) = 0 := by
    norm_num [calculateAdjustedQuality, initializeProgress, evC5]
  have hi : (calculateNextReview 0 none evC5).updated_progress.interval_days = 1 := by
    rw [(review_interval_eq 0 none evC5).2]
    simp only [Option.getD_none]
    rw [hq]
    norm_num [calculateSM2Interval, updateProgressData, initializeProgress,
      calculateDifficultyTrend, jsRound]
  have hrec : (calculateNextReview 0 none evC5).performance_feedback
      = { level := FeedbackLevel.poor
          message := "Difficulty recalling. Additional study recommended."
          next_session_recommendation :=
            "Review tomorrow and consider studying related concepts." } := by
    rw [review_feedback_eq]
    simp only [Option.getD_none]
    rw [hq]
    norm_num [generatePerformanceFeedback]
  rw [hrec, hi]
  exact ⟨rfl, by decide⟩

/-- The three fields of `calculateOptimalSessionLength`, spelled out. -/
theorem session_fields (today : ℤ) (l : List FlashcardProgress) (avg : ℚ) :
    (calculateOptimalSessionLength today l avg).recommended_cards
        = max 5 (min (min 25 (getDueCards today l).length) 20) ∧
      (calculateOptimalSessionLength today l avg).estimated_duration_minutes
        = ⌈((max 5 (min (min 25 (getDueCards today l).length) 20) : ℕ) : ℚ)
            * (avg / 1000) / 60⌉ ∧
      (calculateOptimalSessionLength today l avg).break_recommendation
        = (if 30 < (⌈((max 5 (min (min 25 (getDueCards today l).length) 20) : ℕ) : ℚ)
                * (avg / 1000) / 60⌉ : ℤ) then
            "Take a 5-minute break after every 15 cards to maintain focus."
          else if 45 < (⌈((max 5 (min (min 25 (getDueCards today l).length) 20) : ℕ) : ℚ)
                * (avg / 1000) / 60⌉ : ℤ) then
            "Consider splitting this session into two shorter sessions."
          else
            "Complete all cards in one focused session for best results.") :=
  ⟨rfl, rfl, rfl⟩

/-- **C4 (amended)**: the `> 45` check sits in the dead `else` branch of
the `> 30` check, so the split-into-two-sessions suggestion is
unreachable: every session longer than 30 minutes (including those over
45) gets the 5-minute-break suggestion, and all others get the
single-focused-session message. -/
theorem break_recommendation_tiering (today : ℤ)
    (l : List FlashcardProgress) (avg : ℚ) :
    (calculateOptimalSessionLength today l avg).break_recommendation
      = if 30 < (calculateOptimalSessionLength today l avg).estimated_duration_minutes
        then "Take a 5-minute break after every 15 cards to maintain focus."
        else "Complete all cards in one focused session for best results." := by
  obtain ⟨-, hd, hb⟩ := session_fields today l avg
  rw [hb, hd]
  set D : ℤ := ⌈((max 5 (min (min 25 (getDueCards today l).length) 20) : ℕ) : ℚ)
      * (avg / 1000) / 60⌉ with hD
  by_cases h : 30 < D
  · simp [h]
  · have h45 : ¬ 45 < D := by omega
    simp [h, h45]

/-- **C4 (counterexample)**: with no cards and a 10-minute average
response time the estimated session length is 50 minutes (> 45), yet the
recommendation is the 5-minute-break message, not the split-session
message the claim requires. -/
theorem break_recommendation_over45_counterexample :
    45 < (calculateOptimalSessionLength 0 [] 600000).estimated_duration_minutes ∧
      (calculateOptimalSessionLength 0 [] 600000).break_recommendation
        ≠ "Consider splitting this session into two shorter sessions." ∧
      (calculateOptimalSessionLength 0 [] 600000).break_recommendation
        = "Take a 5-minute break after every 15 cards to maintain focus." := by
  have h50 : ((max 5 (min (min 25 (getDueCards 0
          ([] : List FlashcardProgress)).length) 20) : ℕ) : ℚ)
        * ((600000 : ℚ) / 1000) / 60 = ((50 : ℤ) : ℚ) := by
    simp [getDueCards]
    norm_num
  have hd : (calculateOptimalSessionLength 0 [] 600000).estimated_duration_minutes
      = 50 := by
    rw [(session_fields 0 [] 600000).2.1, h50, Int.ceil_intCast]
  have hb : (calculateOptimalSessionLength 0 [] 600000).break_recommendation
      = "Take a 5-minute break after every 15 cards to maintain focus." := by
    rw [(session_fields 0 [] 600000).2.2, h50, Int.ceil_intCast]
    norm_num
  refine ⟨by omega, ?_, hb⟩
  rw [hb]
  decide

/-- The analytics of a review result are computed from the fully updated
snapshot. -/
theorem review_analytics_eq (now : ℤ)
    (currentProgress : Option FlashcardProgress) (ev : ReviewResponse) :
    (calculateNextReview now currentProgress ev).study_analytics
      = calculateStudyAnalytics now
          (calculateNextReview now currentProgress ev).updated_progress := rfl

/-- `calculateNextReview` stamps `last_reviewed_at` with the current
time before computing the analytics. -/
theorem review_last_reviewed_eq (now : ℤ)
    (currentProgress : Option FlashcardProgress) (ev : ReviewResponse) :
    (calculateNextReview now currentProgress
        ev).updated_progress.last_reviewed_at = some now := rfl

/-- On a snapshot whose `last_reviewed_at` equals the injected clock, the
decay term vanishes and the memory strength collapses to
`round2(max(0.1, success_rate))`. -/
theorem estimatedMemoryStrength_of_last_eq_now (now : ℤ)
    (p : FlashcardProgress) (h : p.last_reviewed_at = some now) :
    estimatedMemoryStrength now p
      = round2R (max (1/10) (p.success_rate : ℝ)) := by
  simp only [estimatedMemoryStrength, h, sub_self, Int.cast_zero, zero_div,
    neg_zero, Real.exp_zero, mul_one]

/-- **C3 (amended)**: `estimated_memory_strength` is
`max(0.1, retention_rate * exp(−days / (interval_days * 0.5)))` rounded to
2 decimals, but `days` is measured from the **updated** snapshot's
`last_reviewed_at`, which `calculateNextReview` has just stamped with the
current time — so the decay is always `exp 0 = 1` and the value is
`round2(max(0.1, retention_rate))`. -/
theorem memory_strength_no_decay (now : ℤ)
    (prior : Option FlashcardProgress) (ev : ReviewResponse) :
    (calculateNextReview now prior ev).study_analytics.estimated_memory_strength
      = round2R (max (1/10)
          ((calculateNextReview now prior ev).updated_progress.success_rate : ℝ)) := by
  rw [review_analytics_eq]
  show estimatedMemoryStrength now _ = _
  exact estimatedMemoryStrength_of_last_eq_now now _
    (review_last_reviewed_eq now prior ev)

/-- **C6 (amended)**: on an empty collection the due-card query, the
upcoming grouping and the streak computation return empty/zero results,
and `calculateOptimalSessionLength` never fails — but its numeric fields
are not zero-valued: it recommends 5 cards (the lower clamp) and the
corresponding ceiling-of-minutes estimate. -/
theorem empty_collection_utilities (t d : ℤ) (a : ℚ) :
    getDueCards t [] = [] ∧
      getUpcomingReviews t [] d = [] ∧
      calculateStreak [] =
        { current_streak := 0, longest_streak := 0
          streak_type := StreakType.success } ∧
      (calculateOptimalSessionLength t [] a).recommended_cards = 5 ∧
      (calculateOptimalSessionLength t [] a).estimated_duration_minutes
        = ⌈((5 : ℕ) : ℚ) * (a / 1000) / 60⌉ := by
  have hdue : getDueCards t ([] : List FlashcardProgress) = [] := by
    simp [getDueCards]
  have h5 : max 5 (min (min 25 (List.length ([] : List FlashcardProgress))) 20)
      = 5 := by decide
  refine ⟨hdue, ?_, rfl, ?_, ?_⟩
  · simp [getUpcomingReviews, groupCounts]
  · rw [(session_fields t [] a).1, hdue, h5]
  · rw [(session_fields t [] a).2.1, hdue, h5]

/-- **C6 (counterexample)**: with no cards supplied and the default 30 s
average response time, the session recommendation's numeric fields are 5
cards and 3 minutes — not zero. -/
theorem session_empty_not_zero_counterexample :
    (calculateOptimalSessionLength 0 [] 30000).recommended_cards = 5 ∧
      (calculateOptimalSessionLength 0 [] 30000).recommended_cards ≠ 0 ∧
      (calculateOptimalSessionLength 0 [] 30000).estimated_duration_minutes = 3 ∧
      (calculateOptimalSessionLength 0 [] 30000).estimated_duration_minutes ≠ 0 := by
  have hdue : getDueCards 0 ([] : List FlashcardProgress) = [] := by
    simp [getDueCards]
  have h5 : max 5 (min (min 25 (List.length ([] : List FlashcardProgress))) 20)
      = 5 := by decide
  have hc : (calculateOptimalSessionLength 0 [] 30000).recommended_cards = 5 := by
    rw [(session_fields 0 [] 30000).1, hdue, h5]
  have hd : (calculateOptimalSessionLength 0 [] 30000).estimated_duration_minutes
      = 3 := by
    rw [(session_fields 0 [] 30000).2.1, hdue, h5,
      show ((5 : ℕ) : ℚ) * ((30000 : ℚ) / 1000) / 60 = 5/2 by norm_num,
      Int.ceil_eq_iff]
    norm_num
  exact ⟨hc, by omega, hd, by omega⟩

/-- **C10**: whenever the computed calendar-day difference
`Math.ceil((date − now) / 86400000)` is exactly `−1`, `formatNextReview`
returns the dedicated label `Yesterday (Overdue)` instead of the generic
overdue form. -/
theorem format_yesterday_overdue (now date : ℤ)
    (h : (⌈((date - now : ℤ) : ℚ) / (1000 * 60 * 60 * 24)⌉ : ℤ) = -1) :
    formatNextReview now date = "Yesterday (Overdue)" := by
  simp only [formatNextReview]
  rw [h]
  norm_num

/-- Witness for C10: `now` one day (86400000 ms) after the target date. -/
theorem format_yesterday_overdue_witness :
    (⌈((0 - 86400000 : ℤ) : ℚ) / (1000 * 60 * 60 * 24)⌉ : ℤ) = -1 ∧
      formatNextReview 86400000 0 = "Yesterday (Overdue)" := by
  have h : (⌈((0 - 86400000 : ℤ) : ℚ) / (1000 * 60 * 60 * 24)⌉ : ℤ) = -1 := by
    rw [show ((0 - 86400000 : ℤ) : ℚ) / (1000 * 60 * 60 * 24)
      = ((-1 : ℤ) : ℚ) by norm_num]
    exact Int.ceil_intCast _
  exact ⟨h, format_yesterday_overdue 86400000 0 h⟩

/-- Witness for C7 at a concrete snapshot, review and follow-up
sequence. -/
theorem quality_history_bounded_witness :
    (calculateNextReview 0 (some (initializeProgress 0))
        evC1).updated_progress.quality_responses
        = ((initializeProgress 0).quality_responses
            ++ [calculateAdjustedQuality evC1 (initializeProgress 0)]).drop
            ((initializeProgress 0).quality_responses.length + 1 - 20) ∧
      (calculateNextReview 0 (some (initializeProgress 0))
          evC1).updated_progress.quality_responses.length ≤ 20 ∧
      (reviewSeq (initializeProgress 0) [(0, evC1)]).quality_responses.length ≤ 20 :=
  quality_history_bounded (initializeProgress 0) (by decide) 0 evC1 [(0, evC1)]

/-- `round2` of a real equal to 1 is 1. -/
theorem round2R_one : round2R 1 = 1 := by
  have h : ⌊(1 : ℝ) * 100 + 1/2⌋ = 100 := by
    rw [Int.floor_eq_iff]
    constructor <;> norm_num
  simp only [round2R, h]
  norm_num

/-- `round2` of a real equal to 0.1 is 0.1. -/
theorem round2R_tenth : round2R (1/10) = 1/10 := by
  have h : ⌊(1/10 : ℝ) * 100 + 1/2⌋ = 10 := by
    rw [Int.floor_eq_iff]
    constructor <;> norm_num
  simp only [round2R, h]
  norm_num

/-- A 100-day decay exponent is far below the 0.1 floor. -/
theorem exp_neg_hundred_le : Real.exp (-100) ≤ 1/10 := by
  rw [Real.exp_neg]
  have h1 : (101 : ℝ) ≤ Real.exp 100 := by
    have := Real.add_one_le_exp (100 : ℝ)
    linarith
  have h2 : (Real.exp 100)⁻¹ ≤ (101 : ℝ)⁻¹ :=
    inv_anti₀ (by norm_num) h1
  calc (Real.exp 100)⁻¹ ≤ (101 : ℝ)⁻¹ := h2
    _ ≤ 1/10 := by norm_num

/-- **C3 (counterexample)**: reviewing a card whose prior snapshot was
last reviewed 300 days ago (adjusted quality 3, updated retention 1,
updated interval 6 days): the code reports memory strength 1 (no decay),
while the claim's formula — decay measured from the **prior**
`last_reviewed_at` — yields `round2(max(0.1, exp(−100))) = 0.1`. -/
theorem memory_strength_prior_date_counterexample :
    (calculateNextReview 0 (some priorC3)
        evC3).study_analytics.estimated_memory_strength = 1 ∧
      specMemoryStrength 0 priorC3
        (calculateNextReview 0 (some priorC3) evC3).updated_progress = 1/10 ∧
      (1 : ℝ) ≠ 1/10 := by
  have hq : calculateAdjustedQuality evC3 priorC3 = 3 := by
    norm_num [calculateAdjustedQuality, priorC3, evC3]
  have hsr : (calculateNextReview 0 (some priorC3)
      evC3).updated_progress.success_rate = 1 := by
    rw [show (calculateNextReview 0 (some priorC3)
          evC3).updated_progress.success_rate
        = (updateProgressData priorC3 evC3
            (calculateAdjustedQuality evC3 priorC3)).success_rate from rfl, hq]
    norm_num [updateProgressData, priorC3, List.filter]
  have hi6 : (calculateNextReview 0 (some priorC3)
      evC3).updated_progress.interval_days = 6 := by
    rw [(review_interval_eq 0 (some priorC3) evC3).2]
    simp only [Option.getD_some]
    rw [hq]
    norm_num [calculateSM2Interval, updateProgressData, priorC3,
      calculateDifficultyTrend, jsRound]
    decide
  have hcode : (calculateNextReview 0 (some priorC3)
      evC3).study_analytics.estimated_memory_strength = 1 := by
    rw [review_analytics_eq]
    show estimatedMemoryStrength 0 _ = 1
    rw [estimatedMemoryStrength_of_last_eq_now 0 _
      (review_last_reviewed_eq 0 (some priorC3) evC3), hsr]
    rw [show (max (1/10 : ℝ) (((1 : ℚ) : ℝ))) = 1 by norm_num]
    exact round2R_one
  have hspec : specMemoryStrength 0 priorC3
      (calculateNextReview 0 (some priorC3) evC3).updated_progress = 1/10 := by
    have hpl : priorC3.last_reviewed_at = some (-25920000000) := rfl
    simp only [specMemoryStrength, hpl]
    rw [hsr, hi6]
    have harg : -(((0 - -25920000000 : ℤ) : ℝ) / (1000 * 60 * 60 * 24))
        / (((6 : ℤ) : ℝ) * (1/2)) = -100 := by
      norm_num
    rw [harg, show (((1 : ℚ) : ℝ)) * Real.exp (-100) = Real.exp (-100) by norm_num,
      max_eq_left (le_trans exp_neg_hundred_le (by norm_num))]
    exact round2R_tenth
  exact ⟨hcode, hspec, by norm_num⟩
